import Mathlib

/-!
Verification of the ride-dispatch simulator (dispatcher, actors, events).

The definitions below are a shallow embedding of the Python sources:
`location.py`, `rider.py`, `driver.py`, `dispatcher.py`, `event.py`.
Mutable objects become values passed and returned explicitly; methods with a
documented precondition (`end_drive`, `end_ride` require a set destination)
return `Option`.  The monitor is an external fire-and-forget sink and is
omitted.  Rider statuses are the string constants of `rider.py`.
-/

/-- `Location` from `location.py`: integer row/column grid point. -/
structure Location where
  row : Int
  column : Int
deriving DecidableEq, Repr

/-- `manhattan_distance` from `location.py`:
`abs(origin.row - destination.row) + abs(origin.column - destination.column)`. -/
def manhattan_distance (origin destination : Location) : Nat :=
  (origin.row - destination.row).natAbs + (origin.column - destination.column).natAbs

/-- Rider status constant `WAITING` from `rider.py`. -/
def WAITING : String := "waiting"

/-- Rider status constant `CANCELLED` from `rider.py`. -/
def CANCELLED : String := "cancelled"

/-- Rider status constant `SATISFIED` from `rider.py`. -/
def SATISFIED : String := "satisfied"

/-- Modelled from the spec: `monitor.py` is not among the sources; `event.py`
imports the event-kind constant `CANCEL` from it.  Per the spec (§3 monitor
record, §9 open question) it is the monitor's CANCEL event-kind tag, a
constant whose name (and value) matches none of the rider-status constants
`WAITING`/`CANCELLED`/`SATISFIED` of `rider.py`. -/
def CANCEL : String := "cancel"

/-- `Rider` from `rider.py`, attributes in `__init__` order:
id, status, destination, location (origin), patience. -/
structure Rider where
  id : String
  status : String
  destination : Location
  location : Location
  patience : Nat
deriving DecidableEq, Repr

/-- `Rider.updateStatus` from `rider.py`: overwrite the status field. -/
def Rider.updateStatus (r : Rider) (newStatus : String) : Rider :=
  { r with status := newStatus }

/-- `Driver` from `driver.py`: id, location, speed, destination
(initialized to `None`, hence `Option`). -/
structure Driver where
  id : String
  location : Location
  speed : Nat
  destination : Option Location
deriving DecidableEq, Repr

/-- `Driver.get_travel_time` from `driver.py`:
`manhattan_distance(self.location, destination) // self.speed`. -/
def Driver.get_travel_time (d : Driver) (destination : Location) : Nat :=
  manhattan_distance d.location destination / d.speed

/-- `Driver.start_drive` from `driver.py`: set `destination := location`, then
return the mutated driver together with
`manhattan_distance(self.location, self.destination) // self.speed`. -/
def Driver.start_drive (d : Driver) (location : Location) : Driver × Nat :=
  ({ d with destination := some location },
   manhattan_distance d.location location / d.speed)

/-- `Driver.end_drive` from `driver.py`: `self.location = self.destination`,
and nothing else — the destination is NOT cleared.  The docstring precondition
`self.destination is not None` is reflected by the `Option` result. -/
def Driver.end_drive (d : Driver) : Option Driver :=
  d.destination.map fun l => { d with location := l }

/-- `Driver.start_ride` from `driver.py`: set `destination := rider.destination`
and return the mutated driver with
`manhattan_distance(self.location, rider.destination) // self.speed`. -/
def Driver.start_ride (d : Driver) (rider : Rider) : Driver × Nat :=
  ({ d with destination := some rider.destination },
   manhattan_distance d.location rider.destination / d.speed)

/-- `Driver.end_ride` from `driver.py`: `self.location = self.destination;
self.destination = None`.  The docstring precondition
`self.destination is not None` is reflected by the `Option` result. -/
def Driver.end_ride (d : Driver) : Option Driver :=
  d.destination.map fun l => { d with location := l, destination := none }

/-- `Dispatcher` state from `dispatcher.py` (`__init__`): the three lists
`driverFleet`, `availableDriver` and `waitingList`. -/
structure Dispatcher where
  driverFleet : List Driver
  availableDriver : List Driver
  waitingList : List Rider
deriving DecidableEq, Repr

/-- The `for driver in self.availableDriver` loop of
`Dispatcher.request_driver`: starting from `nearestDriver`, replace it by any
driver with strictly smaller key `f` (first minimum wins, since the
comparison is strict). -/
def nearestDriverLoop (f : Driver → Nat) (nearestDriver : Driver)
    (drivers : List Driver) : Driver :=
  drivers.foldl (fun nd d => if f d < f nd then d else nd) nearestDriver

/-- `Dispatcher.request_driver` from `dispatcher.py`: if `availableDriver` is
empty, append the rider to `waitingList` and return `None`; otherwise scan the
whole `availableDriver` list (initial candidate `availableDriver[0]`) for the
driver with the smallest `get_travel_time(rider.location)` and return it.
Note the source never removes the returned driver from `availableDriver`.
Returns the result together with the (possibly) mutated dispatcher. -/
def Dispatcher.request_driver (s : Dispatcher) (rider : Rider) :
    Option Driver × Dispatcher :=
  match s.availableDriver with
  | [] => (none, { s with waitingList := s.waitingList ++ [rider] })
  | d0 :: rest =>
      (some (nearestDriverLoop (fun d => d.get_travel_time rider.location)
        d0 (d0 :: rest)), s)

/-- `Dispatcher.request_rider` from `dispatcher.py`: if the driver is not in
`driverFleet`, append it to BOTH `driverFleet` and `availableDriver`; then
return `None` if `waitingList` is empty and `waitingList[0]` otherwise.
Note the source never removes the returned rider from `waitingList`. -/
def Dispatcher.request_rider (s : Dispatcher) (driver : Driver) :
    Option Rider × Dispatcher :=
  let s1 := if driver ∈ s.driverFleet then s
            else { s with driverFleet := s.driverFleet ++ [driver],
                          availableDriver := s.availableDriver ++ [driver] }
  match s1.waitingList with
  | [] => (none, s1)
  | r :: _ => (some r, s1)

/-- `Dispatcher.activateDriver` from `dispatcher.py`: append the driver to
`availableDriver`. -/
def Dispatcher.activateDriver (s : Dispatcher) (driver : Driver) : Dispatcher :=
  { s with availableDriver := s.availableDriver ++ [driver] }

/-- `Dispatcher.cancel_ride` from `dispatcher.py`: remove the rider from
`waitingList` if present (first occurrence), no-op otherwise. -/
def Dispatcher.cancel_ride (s : Dispatcher) (rider : Rider) : Dispatcher :=
  if rider ∈ s.waitingList then { s with waitingList := s.waitingList.erase rider }
  else s

/-- Python values held in `Pickup`/`Dropoff` event fields are untyped object
references; `event.py` stores whatever was passed to `__init__` there (see
`DriverRequest.do`, which passes its arguments to `Pickup` in the wrong
order).  An `Actor` is either a `Driver` or a `Rider`. -/
inductive Actor where
  | driver (d : Driver)
  | rider (r : Rider)
deriving DecidableEq, Repr

/-- The event hierarchy of `event.py`.  Constructor fields follow the
`__init__` parameter order of each subclass: `Pickup(timestamp, rider,
driver)` and `Dropoff(timestamp, driver, rider)`.  The pickup/dropoff fields
are `Actor`s because the source is dynamically typed and one call site swaps
them. -/
inductive Event where
  | riderRequest (timestamp : Nat) (rider : Rider)
  | driverRequest (timestamp : Nat) (driver : Driver)
  | cancellation (timestamp : Nat) (rider : Rider)
  | pickup (timestamp : Nat) (rider driver : Actor)
  | dropoff (timestamp : Nat) (driver rider : Actor)
deriving DecidableEq, Repr

/-- The `timestamp` attribute of `Event.__init__`, common to all variants. -/
def Event.timestamp : Event → Nat
  | .riderRequest t _ => t
  | .driverRequest t _ => t
  | .cancellation t _ => t
  | .pickup t _ _ => t
  | .dropoff t _ _ => t

/-- `Event.__eq__` from `event.py`:
`self.timestamp == other.timestamp`, regardless of variant or payload. -/
def Event.eq (e1 e2 : Event) : Bool :=
  e1.timestamp == e2.timestamp

/-- `Event.__lt__` from `event.py`:
`self.timestamp < other.timestamp`, regardless of variant or payload. -/
def Event.lt (e1 e2 : Event) : Bool :=
  decide (e1.timestamp < e2.timestamp)

/-- `Cancellation.do` from `event.py`: notify the monitor (omitted), call
`dispatcher.cancel_ride(self.rider)`, then UNCONDITIONALLY
`self.rider.updateStatus(CANCELLED)`; return no new events.  Result: the
mutated rider, the mutated dispatcher, the returned event list. -/
def Cancellation_do (timestamp : Nat) (rider : Rider) (dispatcher : Dispatcher) :
    Rider × Dispatcher × List Event :=
  let _ := timestamp
  (rider.updateStatus CANCELLED, dispatcher.cancel_ride rider, [])

/-- `Pickup.do` from `event.py`: `self.driver.end_drive()` first (an
`AttributeError` — modelled `none` — if the `driver` field holds a `Rider`, or
if the destination precondition of `end_drive` fails), then branch on
`self.rider.status` (an `AttributeError` if the `rider` field holds a
`Driver`): if `WAITING`, start the ride and emit a `Dropoff` at
`timestamp + expectedRideTime`; if equal to the monitor constant `CANCEL`
(NOT the rider status `CANCELLED`), emit a `DriverRequest` at the same
timestamp; otherwise no events.  The dispatcher argument is unused by the
source.  Result: the rider field, the mutated driver field, the returned
event list. -/
def Pickup_do (timestamp : Nat) (rider driver : Actor) :
    Option (Actor × Actor × List Event) :=
  match driver with
  | Actor.rider _ => none
  | Actor.driver drv =>
    match drv.end_drive with
    | none => none
    | some d1 =>
      match rider with
      | Actor.driver _ => none
      | Actor.rider rid =>
        if rid.status = WAITING then
          let sr := d1.start_ride rid
          some (Actor.rider rid, Actor.driver sr.1,
            [Event.dropoff (timestamp + sr.2) (Actor.driver sr.1) (Actor.rider rid)])
        else if rid.status = CANCEL then
          some (Actor.rider rid, Actor.driver d1,
            [Event.driverRequest timestamp d1])
        else
          some (Actor.rider rid, Actor.driver d1, [])

/-- `DriverRequest.do` from `event.py`: notify the monitor (omitted), call
`dispatcher.request_rider(self.driver)`; if a rider is returned,
`self.driver.start_drive(rider.location)` and emit
`Pickup(expectedTravelTime + self.timestamp, self.driver, rider)` — note the
argument order against `Pickup.__init__(self, timestamp, rider, driver)`:
the driver object is passed in the `rider` position and vice versa.
Result: the mutated driver, the mutated dispatcher, the returned events. -/
def DriverRequest_do (timestamp : Nat) (driver : Driver) (dispatcher : Dispatcher) :
    Driver × Dispatcher × List Event :=
  let rd := dispatcher.request_rider driver
  match rd.1 with
  | none => (driver, rd.2, [])
  | some rider =>
      let sd := driver.start_drive rider.location
      (sd.1, rd.2,
        [Event.pickup (sd.2 + timestamp) (Actor.driver sd.1) (Actor.rider rider)])

/-- Modelled from the spec: `Location.__str__` in `location.py` is an
unimplemented stub (`pass`); the spec (§6 and the `deserialize_location`
docstring) fixes the serialized form of a location as `"row,col"`. -/
def serialize (l : Location) : String :=
  toString l.row ++ "," ++ toString l.column

/-- Python `int(c)` for a single character `c`: its digit value, failing on
anything that is not a decimal digit. -/
def charToInt (c : Char) : Option Int :=
  if c.isDigit then some ((c.toNat - '0'.toNat : Nat) : Int) else none

/-- `deserialize_location` from `location.py`:
`Location(int(location_str[0]), int(location_str[2]))` — it reads ONLY the
characters at positions 0 and 2, failing (`IndexError`/`ValueError`, modelled
`none`) if the string is shorter than 3 characters or either character is not
a digit. -/
def deserialize_location (location_str : String) : Option Location :=
  match location_str.data with
  | c0 :: _ :: c2 :: _ =>
      match charToInt c0, charToInt c2 with
      | some r, some c => some ⟨r, c⟩
      | _, _ => none
  | _ => none

/-- A driver at the origin with speed 1 and no destination. -/
def dD : Driver := ⟨"D", ⟨0, 0⟩, 1, none⟩

/-- A waiting rider at (1,1). -/
def rA : Rider := ⟨"riderA", WAITING, ⟨5, 5⟩, ⟨1, 1⟩, 10⟩

/-- A waiting rider at (2,2). -/
def rB : Rider := ⟨"riderB", WAITING, ⟨6, 6⟩, ⟨2, 2⟩, 10⟩

/-- A dispatcher with the single driver `dD`, available. -/
def sOneDriver : Dispatcher := ⟨[dD], [dD], []⟩

/-- C1: the source violates the no-double-booking claim. At a dispatcher whose
only available driver is `dD`, `request_driver` returns `dD` for rider `rA`
yet leaves `dD` in `availableDriver` (the source never removes it), and a
second `request_driver` for rider `rB`, with no reactivation in between,
returns `dD` again. -/
theorem C1_request_driver_double_books :
    (sOneDriver.request_driver rA).1 = some dD ∧
    dD ∈ (sOneDriver.request_driver rA).2.availableDriver ∧
    ((sOneDriver.request_driver rA).2.request_driver rB).1 = some dD := by
  decide

/-- A dispatcher with an empty fleet and riders `rA`, `rB` waiting. -/
def sTwoWaiting : Dispatcher := ⟨[], [], [rA, rB]⟩

/-- C3: the source violates the pop half of the claim: `request_rider` on a
dispatcher with waiting riders `[rA, rB]` returns the front rider `rA` but
leaves `waitingList` unchanged (it still contains `rA`); the driver is merely
registered (and made available). -/
theorem C3_request_rider_returns_front_without_removal :
    sTwoWaiting.request_rider dD = (some rA, ⟨[dD], [dD], [rA, rB]⟩) := by
  decide

/-- C4 counterexample: registering a brand-new driver via `request_rider` on
an empty dispatcher changes `availableDriver` from `[]` to `[dD]`, so
registration does NOT leave `availableDriver` unchanged. -/
theorem C4_registration_changes_available :
    (Dispatcher.request_rider ⟨[], [], []⟩ dD).2.availableDriver = [dD] ∧
    ([dD] : List Driver) ≠ ([] : List Driver) := by
  decide

/-- The dispatcher returned by `request_rider` is the input dispatcher with
the driver appended to `driverFleet` and `availableDriver` when it was not
registered, unchanged otherwise. -/
theorem request_rider_snd (s : Dispatcher) (d : Driver) :
    (s.request_rider d).2 =
      if d ∈ s.driverFleet then s
      else { s with driverFleet := s.driverFleet ++ [d],
                    availableDriver := s.availableDriver ++ [d] } := by
  unfold Dispatcher.request_rider
  dsimp only
  split <;> rfl

/-- C4 amended: for every driver not yet in `driverFleet`, `request_rider`
appends the driver to `driverFleet` AND to `availableDriver`: registration
alone already makes the driver available. -/
theorem C4_registration_adds_to_both (s : Dispatcher) (d : Driver)
    (h : d ∉ s.driverFleet) :
    (s.request_rider d).2.driverFleet = s.driverFleet ++ [d] ∧
    (s.request_rider d).2.availableDriver = s.availableDriver ++ [d] := by
  rw [request_rider_snd, if_neg h]
  exact ⟨rfl, rfl⟩

/-- C4 amended, witness at a concrete input: registering `dD` on the empty
dispatcher appends it to both lists. -/
theorem C4_registration_adds_to_both_witness :
    (Dispatcher.request_rider ⟨[], [], []⟩ dD).2.driverFleet = [] ++ [dD] ∧
    (Dispatcher.request_rider ⟨[], [], []⟩ dD).2.availableDriver = [] ++ [dD] :=
  C4_registration_adds_to_both ⟨[], [], []⟩ dD (by decide)

/-- A rider whose ride already completed (status SATISFIED). -/
def riderSat : Rider := ⟨"S", SATISFIED, ⟨2, 5⟩, ⟨2, 0⟩, 5⟩

/-- C5: the source violates the claim: `Cancellation.do` unconditionally
overwrites the rider status, so a rider whose status is already SATISFIED at
the cancellation timestamp ends up CANCELLED instead of being left alone. -/
theorem C5_cancellation_overwrites_satisfied :
    (Cancellation_do 5 riderSat ⟨[], [], []⟩).1.status = CANCELLED ∧
    SATISFIED ≠ CANCELLED := by
  decide

/-- A rider who cancelled before pickup (status CANCELLED). -/
def riderCan : Rider := ⟨"C", CANCELLED, ⟨2, 5⟩, ⟨2, 0⟩, 5⟩

/-- A driver en route to (2,0). -/
def driverArriving : Driver := ⟨"D", ⟨0, 0⟩, 1, some ⟨2, 0⟩⟩

/-- C6: the source violates the claim: for a rider whose status is CANCELLED
at execution time, `Pickup.do` returns NO events (in particular no
DriverRequest), because its second branch compares the status against the
monitor constant `CANCEL`, not the rider status `CANCELLED`. -/
theorem C6_pickup_of_cancelled_rider_emits_nothing :
    Pickup_do 3 (Actor.rider riderCan) (Actor.driver driverArriving) =
      some (Actor.rider riderCan, Actor.driver ⟨"D", ⟨2, 0⟩, 1, some ⟨2, 0⟩⟩, []) ∧
    riderCan.status = CANCELLED ∧ CANCELLED ≠ CANCEL := by
  decide

/-- C7 counterexample: `end_drive` does not clear the destination. After
`start_drive` to (2,0) and the matching `end_drive`, the driver sits at (2,0)
with `destination` still `some (2,0)`, not `none`. -/
theorem C7_end_drive_keeps_destination :
    Driver.end_drive (Driver.start_drive ⟨"D", ⟨0, 0⟩, 1, none⟩ ⟨2, 0⟩).1 =
      some ⟨"D", ⟨2, 0⟩, 1, some ⟨2, 0⟩⟩ ∧
    (some ⟨2, 0⟩ : Option Location) ≠ none := by
  decide

/-- C7 amended: both drive-start operations set the destination; `end_drive`
moves the driver to its destination but leaves the destination set; only
`end_ride` moves the driver to its destination AND clears the destination to
none. -/
theorem C7_destination_lifecycle :
    (∀ (d : Driver) (loc : Location), ((d.start_drive loc).1).destination = some loc) ∧
    (∀ (d : Driver) (r : Rider), ((d.start_ride r).1).destination = some r.destination) ∧
    (∀ (d : Driver) (l : Location), d.destination = some l →
      d.end_drive = some { d with location := l }) ∧
    (∀ (d : Driver) (l : Location), d.destination = some l →
      d.end_ride = some { d with location := l, destination := none }) := by
  refine ⟨fun d loc => rfl, fun d r => rfl, fun d l h => ?_, fun d l h => ?_⟩ <;>
    simp [Driver.end_drive, Driver.end_ride, h]

/-- C7 amended, witness at a concrete input: ending a drive keeps the
destination, ending a ride clears it. -/
theorem C7_destination_lifecycle_witness :
    Driver.end_drive ⟨"D", ⟨0, 0⟩, 1, some ⟨2, 5⟩⟩ =
      some ⟨"D", ⟨2, 5⟩, 1, some ⟨2, 5⟩⟩ ∧
    Driver.end_ride ⟨"D", ⟨0, 0⟩, 1, some ⟨2, 5⟩⟩ =
      some ⟨"D", ⟨2, 5⟩, 1, none⟩ :=
  ⟨C7_destination_lifecycle.2.2.1 ⟨"D", ⟨0, 0⟩, 1, some ⟨2, 5⟩⟩ ⟨2, 5⟩ rfl,
   C7_destination_lifecycle.2.2.2 ⟨"D", ⟨0, 0⟩, 1, some ⟨2, 5⟩⟩ ⟨2, 5⟩ rfl⟩

/-- Specification of the `request_driver` scan: `nearestDriverLoop f b l` is a
minimizer of `f` over `b` and `l`, and when it differs from the initial
candidate `b` it is the FIRST element of `l` attaining its value (everything
iterated before it is strictly worse, as is `b`). -/
theorem nearestDriverLoop_spec (f : Driver → Nat) :
    ∀ (l : List Driver) (b : Driver),
      (∀ d ∈ l, f (nearestDriverLoop f b l) ≤ f d) ∧
      f (nearestDriverLoop f b l) ≤ f b ∧
      (nearestDriverLoop f b l = b ∨
        ∃ l1 l2, l = l1 ++ nearestDriverLoop f b l :: l2 ∧
          f (nearestDriverLoop f b l) < f b ∧
          ∀ d ∈ l1, f (nearestDriverLoop f b l) < f d) := by
  intro l
  induction l with
  | nil =>
      intro b
      exact ⟨by simp, by simp [nearestDriverLoop], Or.inl rfl⟩
  | cons a as ih =>
      intro b
      by_cases hc : f a < f b
      · have hstep : nearestDriverLoop f b (a :: as) = nearestDriverLoop f a as := by
          simp only [nearestDriverLoop, List.foldl_cons]
          rw [if_pos hc]
        obtain ⟨h1, h2, h3⟩ := ih a
        rw [hstep]
        refine ⟨?_, le_of_lt (lt_of_le_of_lt h2 hc), Or.inr ?_⟩
        · intro d hd
          rcases List.mem_cons.mp hd with rfl | h
          · exact h2
          · exact h1 d h
        · rcases h3 with hmb | ⟨l1, l2, hsplit, hlt, hpre⟩
          · exact ⟨[], as, by simp [hmb], by rw [hmb]; exact hc, by simp⟩
          · refine ⟨a :: l1, l2,
              by rw [List.cons_append]; exact congrArg (List.cons a) hsplit,
              lt_trans hlt hc, ?_⟩
            intro d hd
            rcases List.mem_cons.mp hd with rfl | h
            · exact hlt
            · exact hpre d h
      · have hb : f b ≤ f a := le_of_not_lt hc
        have hstep : nearestDriverLoop f b (a :: as) = nearestDriverLoop f b as := by
          simp only [nearestDriverLoop, List.foldl_cons]
          rw [if_neg hc]
        obtain ⟨h1, h2, h3⟩ := ih b
        rw [hstep]
        refine ⟨?_, h2, ?_⟩
        · intro d hd
          rcases List.mem_cons.mp hd with rfl | h
          · exact le_trans h2 hb
          · exact h1 d h
        · rcases h3 with hmb | ⟨l1, l2, hsplit, hlt, hpre⟩
          · exact Or.inl hmb
          · refine Or.inr ⟨a :: l1, l2,
              by rw [List.cons_append]; exact congrArg (List.cons a) hsplit,
              hlt, ?_⟩
            intro d hd
            rcases List.mem_cons.mp hd with rfl | h
            · exact lt_of_lt_of_le hlt hb
            · exact hpre d h

/-- C2: if `availableDriver` is empty, `request_driver` appends the rider to
`waitingList` and returns none; otherwise it returns an available driver whose
`get_travel_time` to the rider's location is minimal over `availableDriver`,
and every driver iterated before it is strictly farther (ties go to the first
encountered). -/
theorem C2_request_driver_selection (s : Dispatcher) (r : Rider) :
    (s.availableDriver = [] →
      s.request_driver r = (none, { s with waitingList := s.waitingList ++ [r] })) ∧
    (s.availableDriver ≠ [] →
      ∃ d l1 l2,
        (s.request_driver r).1 = some d ∧
        s.availableDriver = l1 ++ d :: l2 ∧
        (∀ d2 ∈ s.availableDriver,
          d.get_travel_time r.location ≤ d2.get_travel_time r.location) ∧
        (∀ d2 ∈ l1,
          d.get_travel_time r.location < d2.get_travel_time r.location)) := by
  constructor
  · intro h
    simp only [Dispatcher.request_driver, h]
  · intro h
    obtain ⟨d0, rest, hav⟩ := List.exists_cons_of_ne_nil h
    have hreq : (s.request_driver r).1 =
        some (nearestDriverLoop (fun d => d.get_travel_time r.location)
          d0 (d0 :: rest)) := by
      simp only [Dispatcher.request_driver, hav]
    obtain ⟨h1, h2, h3⟩ :=
      nearestDriverLoop_spec (fun d => d.get_travel_time r.location) (d0 :: rest) d0
    refine ⟨nearestDriverLoop (fun d => d.get_travel_time r.location) d0 (d0 :: rest),
      ?_⟩
    rcases h3 with hmb | ⟨l1, l2, hsplit, _, hpre⟩
    · refine ⟨[], rest, hreq, hav.trans ?_, ?_, by simp⟩
      · rw [hmb]
        exact (List.nil_append _).symm
      · intro d2 hd2
        rw [hav] at hd2
        exact h1 d2 hd2
    · refine ⟨l1, l2, hreq, hav.trans hsplit, ?_, hpre⟩
      intro d2 hd2
      rw [hav] at hd2
      exact h1 d2 hd2

/-- The nearest of the two drivers of Scenario B: at the origin, speed 1. -/
def dNear : Driver := ⟨"near", ⟨0, 0⟩, 1, none⟩

/-- The farther of the two drivers of Scenario B: at (10,10), speed 1. -/
def dFar : Driver := ⟨"far", ⟨10, 10⟩, 1, none⟩

/-- A dispatcher with available drivers at (0,0) and (10,10). -/
def sTwoAvail : Dispatcher := ⟨[dNear, dFar], [dNear, dFar], []⟩

/-- C2, witness at concrete inputs: with no available driver, rider `rA` goes
onto the waiting list (Scenario A); with drivers at (0,0) and (10,10) and the
rider at (1,1), a minimal-travel-time driver is returned (Scenario B). -/
theorem C2_request_driver_selection_witness :
    (Dispatcher.request_driver ⟨[], [], []⟩ rA = (none, ⟨[], [], [rA]⟩)) ∧
    (∃ d l1 l2,
      (sTwoAvail.request_driver rA).1 = some d ∧
      sTwoAvail.availableDriver = l1 ++ d :: l2 ∧
      (∀ d2 ∈ sTwoAvail.availableDriver,
        d.get_travel_time rA.location ≤ d2.get_travel_time rA.location) ∧
      (∀ d2 ∈ l1,
        d.get_travel_time rA.location < d2.get_travel_time rA.location)) :=
  ⟨(C2_request_driver_selection ⟨[], [], []⟩ rA).1 rfl,
   (C2_request_driver_selection sTwoAvail rA).2 (by decide)⟩

/-- The already-waiting rider of Scenario D: at (2,0), destination (2,5). -/
def riderD8 : Rider := ⟨"R", WAITING, ⟨2, 5⟩, ⟨2, 0⟩, 10⟩

/-- C8: the source breaks the Scenario D chain. `DriverRequest.do` at t=0 for
driver `dD` (at the origin, speed 1) with rider `riderD8` already waiting does
emit a Pickup at t=2, but it passes its arguments to
`Pickup.__init__(timestamp, rider, driver)` in the wrong order: the event's
`rider` field holds the driver and its `driver` field holds the rider.
Executing that Pickup then calls `end_drive` on the rider — an
`AttributeError` (modelled `none`) — so no Dropoff at t=7 is ever produced and
the rider is never SATISFIED. -/
theorem C8_scenario_chain_breaks :
    (DriverRequest_do 0 dD ⟨[], [], [riderD8]⟩).2.2 =
      [Event.pickup 2 (Actor.driver ⟨"D", ⟨0, 0⟩, 1, some ⟨2, 0⟩⟩)
        (Actor.rider riderD8)] ∧
    Pickup_do 2 (Actor.driver ⟨"D", ⟨0, 0⟩, 1, some ⟨2, 0⟩⟩)
      (Actor.rider riderD8) = none := by
  decide

/-- C9 counterexample: the round trip fails as soon as a coordinate has two
digits: `serialize ⟨12, 3⟩ = "12,3"`, and `deserialize_location` reads only
the characters at positions 0 and 2, so it hits the comma and fails. -/
theorem C9_round_trip_fails_two_digits :
    deserialize_location (serialize ⟨12, 3⟩) ≠ some ⟨12, 3⟩ := by
  decide

/-- C9 amended: the round trip `deserialize_location (serialize loc) = loc`
holds exactly on the domain the source's character-indexed parser supports:
locations whose row and column are single decimal digits (0–9). -/
theorem C9_single_digit_round_trip :
    ∀ r : Nat, r < 10 → ∀ c : Nat, c < 10 →
      deserialize_location (serialize ⟨(r : Int), (c : Int)⟩) =
        some ⟨(r : Int), (c : Int)⟩ := by
  decide

/-- C9 amended, witness at a concrete input: (3,4) round-trips. -/
theorem C9_single_digit_round_trip_witness :
    deserialize_location (serialize ⟨(3 : Int), (4 : Int)⟩) =
      some ⟨(3 : Int), (4 : Int)⟩ :=
  C9_single_digit_round_trip 3 (by decide) 4 (by decide)

/-- C10: event comparison is by timestamp only: `__eq__` holds iff the
timestamps are equal and `__lt__` iff the first timestamp is smaller,
regardless of variant or payload; in particular two structurally different
events (a Pickup and a Dropoff) with the same timestamp compare equal. -/
theorem C10_event_comparison_by_timestamp :
    (∀ e1 e2 : Event, Event.eq e1 e2 = true ↔ e1.timestamp = e2.timestamp) ∧
    (∀ e1 e2 : Event, Event.lt e1 e2 = true ↔ e1.timestamp < e2.timestamp) ∧
    (∃ e1 e2 : Event, Event.eq e1 e2 = true ∧ e1 ≠ e2) := by
  refine ⟨fun e1 e2 => ?_, fun e1 e2 => ?_, ?_⟩
  · simp [Event.eq]
  · simp [Event.lt]
  · exact ⟨Event.pickup 3 (Actor.rider ⟨"r", WAITING, ⟨0, 0⟩, ⟨0, 0⟩, 0⟩)
        (Actor.driver ⟨"d", ⟨0, 0⟩, 1, none⟩),
      Event.dropoff 3 (Actor.driver ⟨"d", ⟨0, 0⟩, 1, none⟩)
        (Actor.rider ⟨"r", WAITING, ⟨0, 0⟩, ⟨0, 0⟩, 0⟩),
      by decide, by decide⟩
